import Mathlib

/-!
Shallow embedding of the `dot` event recorder (src/event.rs,
src/platform/linux/x11.rs) and proofs about its decode loop,
window-attribution pipeline and dispatch loop.

Modelling conventions:

* Byte buffers are `List Nat` (each entry one byte, values < 256 on real
  inputs; the decoder only ever combines them arithmetically).
* Multi-byte integer fields are combined in the host byte order used by
  the x11rb parsers (`from_ne_bytes`, little-endian on the target host).
* Rust panics (`unwrap` on `Err`/`None`, out-of-bounds slicing) are
  modelled as an explicit `panic` outcome; Rust's `Option`/`Result`
  values that the code handles are modelled as `Option`.
* The two X11 connections are abstracted as an `Env` of oracles:
  `wmClass w` is the class-segment byte string produced by x11rb's
  `WmClass::get(..).reply_unchecked()` for window `w` (`none` when the
  property is absent), and `activeWindowProp r` is the list of 32-bit
  values of the `_NET_ACTIVE_WINDOW` property on root `r` as exposed by
  `GetPropertyReply::value32()` (`none` when the format is not 32-bit).
  Connection-level I/O errors on the control connection are out of scope
  of the claims about these two lookups.
* `chrono::Utc::now()` timestamps are real time and are omitted from the
  modelled `Event`; `app : List Nat` is the byte content of the Rust
  `String` (UTF-8 validation happens before construction, and
  `str::to_string` preserves the bytes).
-/

namespace Dot

/-- Byte at index `i` of the buffer, `none` when out of bounds
(an out-of-bounds Rust index would panic; callers model that). -/
def u8At (l : List Nat) (i : Nat) : Option Nat := l.get? i

/-- 16-bit field at byte offset `i`, combined in host (little-endian) order,
as parsed by x11rb's `u16::try_parse`. -/
def u16At (l : List Nat) (i : Nat) : Option Nat :=
  match l.get? i, l.get? (i + 1) with
  | some a, some b => some (a + 256 * b)
  | _, _ => none

/-- 32-bit field at byte offset `i`, combined in host (little-endian) order,
as parsed by x11rb's `u32::try_parse`. -/
def u32At (l : List Nat) (i : Nat) : Option Nat :=
  match l.get? i, l.get? (i + 1), l.get? (i + 2), l.get? (i + 3) with
  | some a, some b, some c, some d =>
      some (a + 256 * b + 65536 * c + 16777216 * d)
  | _, _, _, _ => none

/-- Signed 16-bit field at byte offset `i` (`i16` on the wire, e.g.
`root_x`/`root_y` of a motion event). -/
def i16At (l : List Nat) (i : Nat) : Option Int :=
  match u16At l i with
  | some v => some (if v < 32768 then (v : Int) else (v : Int) - 65536)
  | none => none

/-- EventData from src/event.rs. `PointerMove` coordinates are stored as
`f64` in Rust but are produced by exact `i16 → f64` conversions, so they
are modelled as the corresponding integers. -/
inductive EventData where
  | KeyPress (code : Nat)
  | PointerPress (button : Nat)
  | PointerMove (x : Int) (y : Int)
  | FocusIn
  | FocusOut
deriving DecidableEq, Repr

/-- Event from src/event.rs, without the real-time `timestamp` field;
`app` is the byte content of the Rust `String`. -/
structure Event where
  app : List Nat
  data : EventData
deriving DecidableEq, Repr

/-- Whether `b` is a UTF-8 continuation byte (`0x80..=0xBF`). -/
def utf8Cont (b : Nat) : Bool := 128 ≤ b && b ≤ 191

/-- Allowed range of the second byte of a 3-byte sequence, which depends
on the leading byte (`0xE0` and `0xED` restrict it). -/
def utf8Cont3 (b0 b : Nat) : Bool :=
  if b0 = 224 then 160 ≤ b && b ≤ 191
  else if b0 = 237 then 128 ≤ b && b ≤ 159
  else utf8Cont b

/-- Allowed range of the second byte of a 4-byte sequence, which depends
on the leading byte (`0xF0` and `0xF4` restrict it). -/
def utf8Cont4 (b0 b : Nat) : Bool :=
  if b0 = 240 then 144 ≤ b && b ≤ 191
  else if b0 = 244 then 128 ≤ b && b ≤ 143
  else utf8Cont b

/-- UTF-8 validity of a byte string, following `std::str::from_utf8`
(RFC 3629: no overlong encodings, no surrogates, max U+10FFFF). -/
def validUtf8 : List Nat → Bool
  | [] => true
  | b :: rest =>
    if b < 128 then validUtf8 rest
    else if b < 194 then false
    else if b ≤ 223 then
      match rest with
      | c :: rest2 => utf8Cont c && validUtf8 rest2
      | [] => false
    else if b ≤ 239 then
      match rest with
      | c :: d :: rest3 => utf8Cont3 b c && utf8Cont d && validUtf8 rest3
      | _ => false
    else if b ≤ 244 then
      match rest with
      | c :: d :: e :: rest4 =>
          utf8Cont4 b c && utf8Cont d && utf8Cont e && validUtf8 rest4
      | _ => false
    else false

/-- Environment abstracting the X11 server state reachable over the
control connection, plus the startup capability check. -/
structure Env where
  hasRecordExtension : Bool
  wmClass : Nat → Option (List Nat)
  activeWindowProp : Nat → Option (List Nat)

/-- get_window_class (x11.rs:195): fetch the WM_CLASS class segment;
absent property gives `none`; bytes that are not valid UTF-8 give
`none`; otherwise the property's text bytes. -/
def get_window_class (env : Env) (window : Nat) : Option (List Nat) :=
  match env.wmClass window with
  | none => none
  | some bs => if validUtf8 bs then some bs else none

/-- get_active_window (x11.rs:238): read one 32-bit value of
_NET_ACTIVE_WINDOW on `root`. The Rust code `unwrap`s both the
wrong-format case (`value32()` returning `None`) and the empty-property
case (`next()` returning `None`), so both are modelled as `none`,
meaning panic at the call site. -/
def get_active_window (env : Env) (root : Nat) : Option Nat :=
  match env.activeWindowProp root with
  | none => none
  | some [] => none
  | some (w :: _) => some w

/-- Fields of `xproto::KeyPressEvent` / `ButtonPressEvent` that the
recorder uses: `detail` at byte 1 and the `event` window at bytes
12..15. The full x11rb parse consumes exactly 32 bytes. -/
structure KeyLike where
  detail : Nat
  event : Nat
deriving DecidableEq, Repr

/-- xproto::KeyPressEvent::try_parse / ButtonPressEvent::try_parse:
succeeds only on at least 32 bytes, yielding `detail` and the `event`
window. -/
def parseKeyLike (data : List Nat) : Option KeyLike :=
  if 32 ≤ data.length then
    match u8At data 1, u32At data 12 with
    | some d, some w => some ⟨d, w⟩
    | _, _ => none
  else none

/-- Fields of `xproto::MotionNotifyEvent` that the recorder uses:
`root` window at bytes 8..11, `root_x` at 20..21, `root_y` at 22..23
(both `i16`). The full x11rb parse consumes exactly 32 bytes. -/
structure MotionEv where
  root : Nat
  rootX : Int
  rootY : Int
deriving DecidableEq, Repr

/-- xproto::MotionNotifyEvent::try_parse: succeeds only on at least 32
bytes, yielding the root window and root coordinates. -/
def parseMotion (data : List Nat) : Option MotionEv :=
  if 32 ≤ data.length then
    match u32At data 8, i16At data 20, i16At data 22 with
    | some r, some x, some y => some ⟨r, x, y⟩
    | _, _, _ => none
  else none

/-- xproto::FocusInEvent::try_parse / FocusOutEvent::try_parse: the
generated parser consumes the 12 declared bytes (detail, sequence,
`event` window at bytes 4..7, mode, 3 pad bytes) and returns the rest
of the input, yielding the `event` window. -/
def parseFocusLike (data : List Nat) : Option Nat :=
  if 12 ≤ data.length then u32At data 4 else none

/-- KEY_PRESS_EVENT tag byte. -/
def KEY_PRESS : Nat := 2
/-- BUTTON_PRESS_EVENT tag byte. -/
def BUTTON_PRESS : Nat := 4
/-- MOTION_NOTIFY_EVENT tag byte. -/
def MOTION_NOTIFY : Nat := 6
/-- FOCUS_IN_EVENT tag byte. -/
def FOCUS_IN : Nat := 9
/-- FOCUS_OUT_EVENT tag byte. -/
def FOCUS_OUT : Nat := 10

/-- Outcome of one iteration of the inner decode loop of `record`
(x11.rs:81-186): either a Rust panic, or `next emitted cursorNext`,
where `cursorNext` is the start index of the new `stream` suffix within
`reply.data` and `emitted` the event passed to the callback, if any. -/
inductive StepResult where
  | panic
  | next (emitted : Option Event) (cursorNext : Nat)
deriving DecidableEq, Repr

/-- One iteration of the decode loop body, exactly as written in
x11.rs:82-185. Note the faithful modelling of the rebinding
`let data = &reply.data;` at x11.rs:82: the body examines `data[0]` and
slices `data` — the WHOLE buffer — never the current `stream` suffix,
so the result does not depend on the loop's cursor at all, which is why
this function takes no cursor argument. -/
def step (env : Env) (data : List Nat) : StepResult :=
  match u8At data 0 with
  | none => .panic
  | some t =>
    if t = 0 then
      -- reply unit: length field at byte 4, unit size length*4 + 32;
      -- `&data[..length]` and `&data[length..]` panic when the unit
      -- overruns the buffer, and the u32 parse panics below 8 bytes
      match u32At data 4 with
      | none => .panic
      | some len0 =>
        if len0 * 4 + 32 ≤ data.length then .next none (len0 * 4 + 32)
        else .panic
    else if t = KEY_PRESS then
      match parseKeyLike data with
      | none => .panic
      | some ev =>
        match get_window_class env ev.event with
        | some cls => .next (some ⟨cls, .KeyPress ev.detail⟩) 32
        | none => .next none 32
    else if t = BUTTON_PRESS then
      match parseKeyLike data with
      | none => .panic
      | some ev =>
        match get_window_class env ev.event with
        | some cls => .next (some ⟨cls, .PointerPress ev.detail⟩) 32
        | none => .next none 32
    else if t = MOTION_NOTIFY then
      match parseMotion data with
      | none => .panic
      | some ev =>
        match get_active_window env ev.root with
        | none => .panic
        | some aw =>
          match get_window_class env aw with
          | some cls => .next (some ⟨cls, .PointerMove ev.rootX ev.rootY⟩) 32
          | none => .next none 32
    else if t = FOCUS_IN then
      match parseFocusLike data with
      | none => .panic
      | some w =>
        match get_window_class env w with
        | some cls => .next (some ⟨cls, .FocusIn⟩) 12
        | none => .next none 12
    else if t = FOCUS_OUT then
      match parseFocusLike data with
      | none => .panic
      | some w =>
        match get_window_class env w with
        | some cls => .next (some ⟨cls, .FocusOut⟩) 12
        | none => .next none 12
    else
      -- error or unrecognized event: skip 32 bytes (`&data[32..]`
      -- panics when fewer than 32 bytes remain)
      if 32 ≤ data.length then .next none 32 else .panic

/-- Result of running the decode loop on one buffer: normal exit with
the emitted events, a Rust panic, or fuel exhaustion (the Rust loop is
still running after that many iterations — used to exhibit
non-termination). -/
inductive RunResult where
  | ok (events : List Event)
  | panic (events : List Event)
  | fuelOut (events : List Event)
deriving DecidableEq, Repr

/-- Events carried by a `RunResult`, whatever the outcome. -/
def RunResult.events : RunResult → List Event
  | .ok evs => evs
  | .panic evs => evs
  | .fuelOut evs => evs

/-- The decode loop `while !stream.is_empty()` of x11.rs:81, with the
cursor `i` marking the start of the `stream` suffix inside `reply.data`
and an explicit fuel bound on the number of iterations. -/
def runAux (env : Env) (data : List Nat) :
    Nat → Nat → List Event → RunResult
  | 0, i, acc => if data.length ≤ i then .ok acc else .fuelOut acc
  | fuel + 1, i, acc =>
    if data.length ≤ i then .ok acc
    else
      match step env data with
      | .panic => .panic acc
      | .next e j => runAux env data fuel j (acc ++ e.toList)

/-- Full decode of one RECORD_FROM_SERVER buffer, as the dispatch loop
invokes it: cursor at 0, no events yet. -/
def decodeBuffer (env : Env) (data : List Nat) (fuel : Nat) : RunResult :=
  runAux env data fuel 0 []

/-- One unit of the record stream as x11rb delivers it
(`record::EnableContextReply`): the fields the dispatch loop reads. -/
structure Reply where
  client_swapped : Bool
  category : Nat
  data : List Nat
deriving DecidableEq, Repr

/-- START_OF_DATA reply category (x11.rs:73). -/
def START_OF_DATA : Nat := 4
/-- RECORD_FROM_SERVER reply category (x11.rs:74). -/
def RECORD_FROM_SERVER : Nat := 0

/-- Outcome of the dispatch loop of `record`: the stream ended
(`finished`), an `unwrap` panic propagated out (`panicked`), the inner
decode loop was still running when its fuel ran out (`fuelOut`), or
startup aborted because the RECORD extension is missing (`aborted`). -/
inductive DispatchResult where
  | finished (events : List Event)
  | panicked (events : List Event)
  | fuelOut (events : List Event)
  | aborted
deriving DecidableEq, Repr

/-- The dispatch loop `for reply in ...` of x11.rs:75-192. A stream item
`none` models an `Err` from the reply iterator, which `reply.unwrap()`
at x11.rs:76 turns into a panic. A swapped unit is only logged
(x11.rs:77-78); a RECORD_FROM_SERVER unit is decoded; START_OF_DATA and
any other category are only logged. -/
def dispatchAux (env : Env) (fuel : Nat) :
    List (Option Reply) → List Event → DispatchResult
  | [], acc => .finished acc
  | none :: _, acc => .panicked acc
  | some r :: rest, acc =>
    if r.client_swapped then dispatchAux env fuel rest acc
    else if r.category = RECORD_FROM_SERVER then
      match decodeBuffer env r.data fuel with
      | .ok evs => dispatchAux env fuel rest (acc ++ evs)
      | .panic evs => .panicked (acc ++ evs)
      | .fuelOut evs => .fuelOut (acc ++ evs)
    else if r.category = START_OF_DATA then dispatchAux env fuel rest acc
    else dispatchAux env fuel rest acc

/-- The startup checks of `record` before the dispatch loop: the only
environment fact they consult is presence of the RECORD extension
(x11.rs:34-42); the early `return` on absence is modelled by
`DispatchResult.aborted`. -/
def startupOk (env : Env) : Bool := env.hasRecordExtension

/-- record (x11.rs:22): startup checks, then the dispatch loop over the
reply stream, collecting the events passed to the callback. -/
def record (env : Env) (fuel : Nat) (replies : List (Option Reply)) :
    DispatchResult :=
  if startupOk env then dispatchAux env fuel replies [] else .aborted

/-! Concrete fixtures used by witnesses and counterexamples. -/

/-- Bytes of the class string "Terminal". -/
def terminalBytes : List Nat := [84, 101, 114, 109, 105, 110, 97, 108]

/-- Bytes of the class string "Browser". -/
def browserBytes : List Nat := [66, 114, 111, 119, 115, 101, 114]

/-- Test environment: window 7 has class "Terminal", window 5 has class
"Browser", the active window of root 1 is window 5, RECORD extension
present. -/
def envA : Env where
  hasRecordExtension := true
  wmClass := fun w =>
    if w = 7 then some terminalBytes
    else if w = 5 then some browserBytes
    else none
  activeWindowProp := fun r => if r = 1 then some [5] else none

/-- A well-formed 32-byte key-press record: tag 2, detail 38, root
window 1 (bytes 8..11), event window 7 (bytes 12..15). -/
def kpRecord : List Nat :=
  [2, 38, 0, 0,  0, 0, 0, 0,  1, 0, 0, 0,  7, 0, 0, 0,
   0, 0, 0, 0,  10, 0, 20, 0,  0, 0, 0, 0,  0, 0, 1, 0]

/-- A well-formed 32-byte motion-notify record: tag 6, root window 1
(bytes 8..11), event window 3, root_x = 10 (bytes 20..21),
root_y = 20 (bytes 22..23). -/
def motionRecord : List Nat :=
  [6, 0, 0, 0,  0, 0, 0, 0,  1, 0, 0, 0,  3, 0, 0, 0,
   0, 0, 0, 0,  10, 0, 20, 0,  0, 0, 0, 0,  0, 0, 1, 0]

/-- A 32-byte non-event reply unit: tag 0, length field 0, so its total
size is 0 * 4 + 32 = 32 bytes. -/
def replyRecord : List Nat := List.replicate 32 0

/-- A 32-byte record with the unrecognized tag 3 (KEY_RELEASE, inside
the subscribed range but not handled). -/
def unrecRecord : List Nat := 3 :: List.replicate 31 0

/-- The event the key-press fixture produces under `envA`. -/
def evTerm : Event := ⟨terminalBytes, .KeyPress 38⟩

/-- The event the motion fixture produces under `envA`. -/
def evBrowserMove : Event := ⟨browserBytes, .PointerMove 10 20⟩

/-- Environment in which no window has a WM_CLASS property. -/
def envNoClass : Env where
  hasRecordExtension := true
  wmClass := fun _ => none
  activeWindowProp := fun r => if r = 1 then some [5] else none

/-- Environment in which every window's WM_CLASS property holds the
single byte 0xFF, which is not valid UTF-8. -/
def envBadBytes : Env where
  hasRecordExtension := true
  wmClass := fun _ => some [255]
  activeWindowProp := fun r => if r = 1 then some [5] else none

/-- Environment whose _NET_ACTIVE_WINDOW property is present but empty
on every root, with classes as in `envA` and the RECORD extension
present. -/
def envBad : Env where
  hasRecordExtension := true
  wmClass := fun w =>
    if w = 7 then some terminalBytes
    else if w = 5 then some browserBytes
    else none
  activeWindowProp := fun _ => some []

/-- A byte-swapped unit whose payload is a truncated record that would
panic the frame decoder if it were ever decoded. -/
def swappedJunk : Reply := ⟨true, RECORD_FROM_SERVER, [2]⟩

/-- A well-formed RECORD_FROM_SERVER unit holding one key-press record. -/
def kpReply : Reply := ⟨false, RECORD_FROM_SERVER, kpRecord⟩

/-- Whether an `EventData` is one of the five variants of the closed
enum in src/event.rs. -/
def isCoreVariant : EventData → Bool
  | .KeyPress _ => true
  | .PointerPress _ => true
  | .PointerMove _ _ => true
  | .FocusIn => true
  | .FocusOut => true

/-! Helper lemmas about the loop runner and the byte accessors. -/

theorem runAux_done (env : Env) (fuel : Nat) {data : List Nat} {i : Nat}
    (acc : List Event) (h : data.length ≤ i) :
    runAux env data fuel i acc = .ok acc := by
  cases fuel <;> simp [runAux, h]

theorem runAux_zero (env : Env) {data : List Nat} {i : Nat}
    (acc : List Event) (h : i < data.length) :
    runAux env data 0 i acc = .fuelOut acc := by
  simp [runAux, Nat.not_le.mpr h]

theorem runAux_panic {env : Env} {data : List Nat} {i : Nat}
    (fuel : Nat) (acc : List Event) (h : i < data.length)
    (hs : step env data = .panic) :
    runAux env data (fuel + 1) i acc = .panic acc := by
  simp [runAux, Nat.not_le.mpr h, hs]

theorem runAux_next {env : Env} {data : List Nat} {i : Nat}
    {e : Option Event} {j : Nat} (fuel : Nat) (acc : List Event)
    (h : i < data.length) (hs : step env data = .next e j) :
    runAux env data (fuel + 1) i acc =
      runAux env data fuel j (acc ++ e.toList) := by
  simp [runAux, Nat.not_le.mpr h, hs]

theorem u8At_lt {l : List Nat} {i v : Nat} (h : u8At l i = some v) :
    i < l.length := by
  by_contra hc
  rw [u8At, List.get?_eq_none.mpr (Nat.le_of_not_lt hc)] at h
  exact Option.noConfusion h

theorem u32At_eq_none {l : List Nat} {i : Nat} (h : l.length < i + 4) :
    u32At l i = none := by
  have h3 : l[i + 3]? = none := by
    simpa using List.get?_eq_none.mpr (show l.length ≤ i + 3 by omega)
  unfold u32At
  rcases h0 : l.get? i with _ | a <;>
    rcases h1 : l.get? (i + 1) with _ | b <;>
      rcases h2 : l.get? (i + 2) with _ | c <;> simp [h3]

/-! Claim theorems. -/

/-- C1: the claim says that a well-formed buffer of k concatenated
32-byte records of recognized types yields exactly k events in order
with the cursor advancing 32*k bytes in total. The code violates this:
because the loop body (x11.rs:82) rebinds `data` to the whole
`reply.data` instead of the advancing `stream` suffix, the tag lookup
and parse always happen at offset 0. On the concrete 64-byte buffer of
two well-formed key-press records, the loop therefore never terminates:
after any number `fuel` of iterations it is still running and has
re-emitted the FIRST record's event `fuel` times, instead of emitting
two events and consuming 64 bytes. -/
theorem c1_two_records_loop_forever :
    ∀ fuel, decodeBuffer envA (kpRecord ++ kpRecord) fuel =
      .fuelOut (List.replicate fuel evTerm) := by
  have hstep : step envA (kpRecord ++ kpRecord) = .next (some evTerm) 32 := by
    decide
  have hlt : 32 < (kpRecord ++ kpRecord).length := by decide
  have aux : ∀ fuel acc, runAux envA (kpRecord ++ kpRecord) fuel 32 acc =
      .fuelOut (acc ++ List.replicate fuel evTerm) := by
    intro fuel
    induction fuel with
    | zero => intro acc; rw [runAux_zero envA acc hlt]; simp
    | succ n ih =>
      intro acc
      rw [runAux_next n acc hlt hstep, ih]
      simp [List.replicate_succ]
  intro fuel
  cases fuel with
  | zero =>
    unfold decodeBuffer
    rw [runAux_zero envA [] (by decide)]
    simp
  | succ n =>
    unfold decodeBuffer
    rw [runAux_next n [] (by decide) hstep, aux]
    simp [List.replicate_succ]

/-- C2: the claim says a tag-0 reply unit with length field L is
skipped in exactly L*4 + 32 bytes and decoding of trailing events then
resumes. On the concrete buffer of a 32-byte reply unit (L = 0)
followed by a well-formed key-press record, the first iteration does
advance the cursor by exactly 0*4 + 32 = 32 bytes, but because the loop
body re-reads the tag at offset 0 of the whole buffer (x11.rs:82), every
later iteration re-skips the same reply: the loop never terminates and
the trailing key-press event is never decoded or delivered. -/
theorem c2_reply_skip_never_resumes :
    step envA (replyRecord ++ kpRecord) = .next none 32 ∧
    ∀ fuel, decodeBuffer envA (replyRecord ++ kpRecord) fuel = .fuelOut [] := by
  have hstep : step envA (replyRecord ++ kpRecord) = .next none 32 := by decide
  have hlt : 32 < (replyRecord ++ kpRecord).length := by decide
  refine ⟨hstep, ?_⟩
  have aux : ∀ fuel acc,
      runAux envA (replyRecord ++ kpRecord) fuel 32 acc = .fuelOut acc := by
    intro fuel
    induction fuel with
    | zero => intro acc; exact runAux_zero envA acc hlt
    | succ n ih =>
      intro acc
      rw [runAux_next n acc hlt hstep]
      simpa using ih acc
  intro fuel
  cases fuel with
  | zero => exact runAux_zero envA [] (by decide)
  | succ n =>
    unfold decodeBuffer
    rw [runAux_next n [] (by decide) hstep]
    simpa using aux n []

/-- C3: the claim says a record with an unrecognized tag is skipped in
exactly 32 bytes and subsequent valid events in the same buffer are
still decoded. On the concrete buffer of a 32-byte KEY_RELEASE (tag 3)
record followed by a well-formed key-press record, the first iteration
does skip exactly 32 bytes, but because the loop body re-reads the tag
at offset 0 of the whole buffer (x11.rs:82), every later iteration
re-skips the same record: the loop never terminates and the trailing
valid key-press event is thrown away (never delivered). -/
theorem c3_unrecognized_skip_discards_rest :
    step envA (unrecRecord ++ kpRecord) = .next none 32 ∧
    ∀ fuel, decodeBuffer envA (unrecRecord ++ kpRecord) fuel = .fuelOut [] := by
  have hstep : step envA (unrecRecord ++ kpRecord) = .next none 32 := by decide
  have hlt : 32 < (unrecRecord ++ kpRecord).length := by decide
  refine ⟨hstep, ?_⟩
  have aux : ∀ fuel acc,
      runAux envA (unrecRecord ++ kpRecord) fuel 32 acc = .fuelOut acc := by
    intro fuel
    induction fuel with
    | zero => intro acc; exact runAux_zero envA acc hlt
    | succ n ih =>
      intro acc
      rw [runAux_next n acc hlt hstep]
      simpa using ih acc
  intro fuel
  cases fuel with
  | zero => exact runAux_zero envA [] (by decide)
  | succ n =>
    unfold decodeBuffer
    rw [runAux_next n [] (by decide) hstep]
    simpa using aux n []

/-- C4: a motion-notify event with root window R is attributed to the
window class of `get_active_window` applied to R (the _NET_ACTIVE_WINDOW
property of R), not to R itself, and its EventData is PointerMove with
x and y taken from the event's root coordinates: for any 32-byte buffer
whose record parses as a motion event, when the active-window and class
lookups succeed the decode loop emits exactly the event built from the
active window's class and the root coordinates. -/
theorem c4_motion_attribution (env : Env) (data : List Nat) (ev : MotionEv)
    (aw : Nat) (cls : List Nat) (fuel : Nat)
    (hlen : data.length = 32)
    (htag : u8At data 0 = some MOTION_NOTIFY)
    (hparse : parseMotion data = some ev)
    (hactive : get_active_window env ev.root = some aw)
    (hclass : get_window_class env aw = some cls) :
    decodeBuffer env data (fuel + 1) =
      .ok [⟨cls, .PointerMove ev.rootX ev.rootY⟩] := by
  have hstep : step env data =
      .next (some ⟨cls, .PointerMove ev.rootX ev.rootY⟩) 32 := by
    simp [step, htag, hparse, hactive, hclass, MOTION_NOTIFY, KEY_PRESS,
      BUTTON_PRESS]
  unfold decodeBuffer
  rw [runAux_next fuel [] (by omega) hstep,
    runAux_done env fuel _ (by omega)]
  simp

/-- C4 witness: under `envA`, whose root 1 has active window 5 of class
"Browser" while window 3 (the motion fixture's event window) and root 1
itself have no class, the motion fixture is attributed to "Browser"
with PointerMove 10 20. -/
theorem c4_motion_attribution_witness :
    decodeBuffer envA motionRecord 1 = .ok [evBrowserMove] := by
  have h := c4_motion_attribution envA motionRecord ⟨1, 10, 20⟩ 5
    browserBytes 0 (by decide) (by decide) (by decide) (by decide) (by decide)
  simpa [evBrowserMove] using h

/-- C5: `get_window_class` returns none when the window's WM_CLASS
property is absent and when its bytes are not valid UTF-8 text, and
returns the property's text bytes otherwise; and when it returns none
for a key-press event's window, that event is dropped: the decode loop
finishes without invoking the sink. -/
theorem c5_class_resolution :
    (∀ env : Env, ∀ w, env.wmClass w = none →
        get_window_class env w = none) ∧
    (∀ env : Env, ∀ w bs, env.wmClass w = some bs → validUtf8 bs = false →
        get_window_class env w = none) ∧
    (∀ env : Env, ∀ w bs, env.wmClass w = some bs → validUtf8 bs = true →
        get_window_class env w = some bs) ∧
    (∀ env : Env, ∀ data ev fuel, data.length = 32 →
        u8At data 0 = some KEY_PRESS → parseKeyLike data = some ev →
        get_window_class env ev.event = none →
        decodeBuffer env data (fuel + 1) = .ok []) := by
  refine ⟨?_, ?_, ?_, ?_⟩
  · intro env w h
    simp [get_window_class, h]
  · intro env w bs h hv
    simp [get_window_class, h, hv]
  · intro env w bs h hv
    simp [get_window_class, h, hv]
  · intro env data ev fuel hlen htag hparse hclass
    have hstep : step env data = .next none 32 := by
      simp [step, htag, hparse, hclass, KEY_PRESS]
    unfold decodeBuffer
    rw [runAux_next fuel [] (by omega) hstep,
      runAux_done env fuel _ (by omega)]
    simp

/-- C5 witness: absent property (window 9 in `envNoClass`), non-text
bytes (0xFF in `envBadBytes`), text bytes (window 7 in `envA`), and the
drop of the key-press fixture when its window has no class. -/
theorem c5_class_resolution_witness :
    get_window_class envNoClass 9 = none ∧
    get_window_class envBadBytes 8 = none ∧
    get_window_class envA 7 = some terminalBytes ∧
    decodeBuffer envNoClass kpRecord 1 = .ok [] := by
  refine ⟨?_, ?_, ?_, ?_⟩
  · exact c5_class_resolution.1 envNoClass 9 rfl
  · exact c5_class_resolution.2.1 envBadBytes 8 [255] rfl (by decide)
  · exact c5_class_resolution.2.2.1 envA 7 terminalBytes (by decide) (by decide)
  · exact c5_class_resolution.2.2.2 envNoClass kpRecord ⟨38, 7⟩ 0
      (by decide) (by decide) (by decide) rfl

/-- C6 counterexample: the claim says an empty or wrongly-typed
_NET_ACTIVE_WINDOW property aborts startup of the core and is not a
per-event error. In `envBad` the property is empty on every root, yet
startup succeeds (startup only checks the RECORD extension), a
key-press buffer is decoded and delivered normally, and the failure
manifests only while processing a motion-notify event, where it panics. -/
theorem c6_counterexample :
    startupOk envBad = true ∧
    decodeBuffer envBad kpRecord 1 = .ok [evTerm] ∧
    decodeBuffer envBad motionRecord 1 = .panic [] := by
  refine ⟨rfl, by decide, by decide⟩

/-- C6 amended: an empty or wrongly-typed _NET_ACTIVE_WINDOW property
is fatal and unrecoverable at the point it is first consulted: decoding
any motion-notify event then panics (terminating the decode loop, with
no per-event recovery), the dispatch loop ends in the panic with no
further units processed (no retry), and startup itself never reads the
property — it depends only on presence of the RECORD extension. -/
theorem c6_active_window_fatal :
    (∀ env : Env, ∀ data ev fuel, u8At data 0 = some MOTION_NOTIFY →
        parseMotion data = some ev →
        (env.activeWindowProp ev.root = none ∨
          env.activeWindowProp ev.root = some []) →
        decodeBuffer env data (fuel + 1) = .panic []) ∧
    (∀ env : Env, ∀ fuel r rest acc, r.client_swapped = false →
        r.category = RECORD_FROM_SERVER →
        decodeBuffer env r.data fuel = .panic [] →
        dispatchAux env fuel (some r :: rest) acc = .panicked acc) ∧
    (∀ env1 env2 : Env, env1.hasRecordExtension = env2.hasRecordExtension →
        startupOk env1 = startupOk env2) := by
  refine ⟨?_, ?_, ?_⟩
  · intro env data ev fuel htag hparse hprop
    have hpos : 0 < data.length := u8At_lt htag
    have hactive : get_active_window env ev.root = none := by
      rcases hprop with h | h <;> simp [get_active_window, h]
    have hstep : step env data = .panic := by
      simp [step, htag, hparse, hactive, MOTION_NOTIFY, KEY_PRESS,
        BUTTON_PRESS]
    unfold decodeBuffer
    exact runAux_panic fuel [] hpos hstep
  · intro env fuel r rest acc hswap hcat hdec
    simp [dispatchAux, hswap, hcat, hdec]
  · intro env1 env2 h
    simp [startupOk, h]

/-- C6 amended witness: under `envBad` the motion fixture panics, a
dispatch stream consisting of that unit ends in the panic, and startup
of `envBad` coincides with startup of `envA`. -/
theorem c6_active_window_fatal_witness :
    decodeBuffer envBad motionRecord 1 = .panic [] ∧
    dispatchAux envBad 1 [some ⟨false, RECORD_FROM_SERVER, motionRecord⟩] []
      = .panicked [] ∧
    startupOk envBad = startupOk envA := by
  refine ⟨?_, ?_, ?_⟩
  · exact c6_active_window_fatal.1 envBad motionRecord ⟨1, 10, 20⟩ 0
      (by decide) (by decide) (Or.inr rfl)
  · exact c6_active_window_fatal.2.1 envBad 1
      ⟨false, RECORD_FROM_SERVER, motionRecord⟩ [] [] rfl rfl (by decide)
  · exact c6_active_window_fatal.2.2 envBad envA rfl

/-- C7: a transport failure (an `Err` item from the reply stream, which
`reply.unwrap()` turns into a panic) terminates the dispatch loop and
propagates to the caller of `record` as a terminal result, not
swallowed: whatever follows the failing item is never processed. -/
theorem c7_transport_failure :
    (∀ env : Env, ∀ fuel rest, startupOk env = true →
        record env fuel (none :: rest) = .panicked []) ∧
    (∀ env : Env, ∀ fuel rest acc,
        dispatchAux env fuel (none :: rest) acc = .panicked acc) := by
  constructor
  · intro env fuel rest h
    simp [record, h, dispatchAux]
  · intro env fuel rest acc
    simp [dispatchAux]

/-- C7 witness: a stream whose first item is a transport error followed
by a perfectly decodable key-press unit makes `record` return the panic
with no events; the trailing unit is not processed. -/
theorem c7_transport_failure_witness :
    record envA 1 (none :: [some kpReply]) = .panicked [] := by
  exact c7_transport_failure.1 envA 1 [some kpReply] rfl

/-- C8: a unit whose client_swapped flag is set is never passed to the
frame decoder and causes no sink invocation: the dispatch loop treats
the stream with that unit exactly as the stream without it, whatever
the unit's payload, and continues with the later units. -/
theorem c8_swapped_unit_skipped :
    ∀ env : Env, ∀ fuel r rest acc, r.client_swapped = true →
      dispatchAux env fuel (some r :: rest) acc =
        dispatchAux env fuel rest acc := by
  intro env fuel r rest acc h
  simp [dispatchAux, h]

/-- C8 witness: the swapped unit's payload is a truncated record that
WOULD panic the decoder if it were ever decoded, yet the dispatch loop
sails past it and still delivers the event of the following well-formed
unit — zero decode steps happened for the swapped unit. -/
theorem c8_swapped_unit_skipped_witness :
    decodeBuffer envA swappedJunk.data 1 = .panic [] ∧
    dispatchAux envA 1 [some swappedJunk, some kpReply] [] =
      .finished [evTerm] := by
  refine ⟨by decide, ?_⟩
  rw [c8_swapped_unit_skipped envA 1 swappedJunk [some kpReply] [] rfl]
  decide

/-- C9: every event the decode loop can ever deliver has EventData
equal to one of the five variants of the closed enum in src/event.rs,
and the four other tags inside the subscribed recording range —
KEY_RELEASE (3), BUTTON_RELEASE (5), ENTER_NOTIFY (7), LEAVE_NOTIFY (8)
— never cause a sink invocation: they fall through to the 32-byte skip
branch, emitting nothing. -/
theorem c9_closed_variants :
    (∀ env : Env, ∀ data fuel, ∀ e ∈ (decodeBuffer env data fuel).events,
        isCoreVariant e.data = true) ∧
    (∀ env : Env, ∀ data t, u8At data 0 = some t →
        (t = 3 ∨ t = 5 ∨ t = 7 ∨ t = 8) → 32 ≤ data.length →
        step env data = .next none 32) := by
  constructor
  · intro env data fuel e _
    cases e with
    | mk app d => cases d <;> rfl
  · intro env data t htag ht hlen
    rcases ht with h | h | h | h <;> subst h <;>
      simp [step, htag, hlen, KEY_PRESS, BUTTON_PRESS, MOTION_NOTIFY,
        FOCUS_IN, FOCUS_OUT]

/-- C9 witness: the event delivered for the key-press fixture is one of
the five variants, and a KEY_RELEASE (tag 3) record emits nothing and
skips 32 bytes. -/
theorem c9_closed_variants_witness :
    isCoreVariant evTerm.data = true ∧
    step envA unrecRecord = .next none 32 := by
  constructor
  · exact c9_closed_variants.1 envA kpRecord 1 evTerm (by decide)
  · exact c9_closed_variants.2 envA unrecRecord 3 (by decide)
      (Or.inl rfl) (by decide)

/-- C10: the decode loop is not total on truncated input: a non-empty
buffer whose first record is shorter than its required length — under 8
bytes for a tag-0 reply header, under 32 bytes for an unrecognized
event/error tag, under the fixed parse length for a recognized tag (32
bytes for key press, button press, motion notify; 12 bytes for focus
in/out) — makes decoding abort abruptly (modelled Rust panic from
`unwrap` or out-of-bounds slicing) instead of skipping the record or
returning a recoverable per-unit error. -/
theorem c10_truncated_input_panics :
    ∀ env : Env, ∀ data t fuel, u8At data 0 = some t →
      ((t = 0 ∧ data.length < 8) ∨
       (t ≠ 0 ∧ t ∉ ([2, 4, 6, 9, 10] : List Nat) ∧ data.length < 32) ∨
       ((t = 2 ∨ t = 4 ∨ t = 6) ∧ data.length < 32) ∨
       ((t = 9 ∨ t = 10) ∧ data.length < 12)) →
      decodeBuffer env data (fuel + 1) = .panic [] := by
  intro env data t fuel htag hcases
  have hpos : 0 < data.length := u8At_lt htag
  have hstep : step env data = .panic := by
    rcases hcases with ⟨h0, hlen⟩ | ⟨h0, hmem, hlen⟩ | ⟨hrec, hlen⟩ | ⟨hfoc, hlen⟩
    · subst h0
      simp [step, htag, u32At_eq_none (show data.length < 4 + 4 by omega)]
    · have h2 : t ≠ 2 := fun h => hmem (by simp [h])
      have h4 : t ≠ 4 := fun h => hmem (by simp [h])
      have h6 : t ≠ 6 := fun h => hmem (by simp [h])
      have h9 : t ≠ 9 := fun h => hmem (by simp [h])
      have h10 : t ≠ 10 := fun h => hmem (by simp [h])
      simp [step, htag, h0, h2, h4, h6, h9, h10, Nat.not_le.mpr hlen,
        KEY_PRESS, BUTTON_PRESS, MOTION_NOTIFY, FOCUS_IN, FOCUS_OUT]
    · have hkp : parseKeyLike data = none := by
        simp [parseKeyLike, Nat.not_le.mpr hlen]
      have hmv : parseMotion data = none := by
        simp [parseMotion, Nat.not_le.mpr hlen]
      rcases hrec with h | h | h <;> subst h <;>
        simp [step, htag, hkp, hmv, KEY_PRESS, BUTTON_PRESS, MOTION_NOTIFY]
    · have hfp : parseFocusLike data = none := by
        simp [parseFocusLike, Nat.not_le.mpr hlen]
      rcases hfoc with h | h <;> subst h <;>
        simp [step, htag, hfp, KEY_PRESS, BUTTON_PRESS, MOTION_NOTIFY,
          FOCUS_IN, FOCUS_OUT]
  unfold decodeBuffer
  exact runAux_panic fuel [] hpos hstep

/-- C10 witness: the 4-byte buffer [0, 0, 0, 0] starts a tag-0 reply
whose header needs 8 bytes, so decoding it panics. -/
theorem c10_truncated_input_panics_witness :
    decodeBuffer envA [0, 0, 0, 0] 1 = .panic [] := by
  exact c10_truncated_input_panics envA [0, 0, 0, 0] 0 0 (by decide)
    (Or.inl ⟨rfl, by decide⟩)

end Dot
